import Mathlib

/-!
Shallow embedding of the PyNN NEST backend shim (pyNN/nest/cells.py and
pyNN/nest/__init__.py), together with proofs about the claims of the
specification.  The external NEST engine is opaque: it is modelled as a
structure of query functions.  Python dictionaries are modelled as
association lists (Python dicts preserve insertion order), Python floats
as rationals, and emitted warnings as explicit string traces.
-/

namespace PyNNNest

/-- A Python value as it can appear among the default parameters returned by
the engine.  `pySeq` models a `pyNN.parameters.Sequence` wrapper, `pyArray`
a `numpy.ndarray`, `pyStrList` a list of strings (for example the value of
the `recordables` entry).  Every other Python value is modelled abstractly by
`pyOther` carrying the name of its Python type.  Python `bool` is a subclass
of `int`, which matters for `isinstance` checks. -/
inductive PyValue where
  | pyInt (n : Int)
  | pyBool (b : Bool)
  | pyFloat (q : ℚ)
  | pySeq (xs : List ℚ)
  | pyArray (xs : List ℚ)
  | pyStr (s : String)
  | pyStrList (ss : List String)
  | pyOther (pythonType : String)
deriving DecidableEq, Repr

/-- `isinstance(value, (int, float, Sequence, np.ndarray))` from
`get_defaults`.  `pyBool` passes because Python `bool` is a subclass of
`int`. -/
def isValidType : PyValue → Bool
  | .pyInt _ => true
  | .pyBool _ => true
  | .pyFloat _ => true
  | .pySeq _ => true
  | .pyArray _ => true
  | _ => false

/-- The name of the Python type of a value, as it appears in the warning
emitted for rejected parameters. -/
def pythonTypeName : PyValue → String
  | .pyInt _ => "int"
  | .pyBool _ => "bool"
  | .pyFloat _ => "float"
  | .pySeq _ => "Sequence"
  | .pyArray _ => "ndarray"
  | .pyStr _ => "str"
  | .pyStrList _ => "list"
  | .pyOther t => t

/-- A Python dict of engine defaults: an association list from names to
values. -/
abbrev PyDict := List (String × PyValue)

/-- `d.get(k, default)` on a Python dict. -/
def dictGet (d : PyDict) (k : String) (dflt : PyValue) : PyValue :=
  match d.find? (fun p => p.1 == k) with
  | some p => p.2
  | none => dflt

/-- The `UNITS_MAP` table of pyNN/nest/cells.py. -/
def UNITS_MAP : List (String × String) :=
  [("spikes", "ms"), ("V_m", "mV"), ("I_syn_ex", "pA"), ("I_syn_in", "pA")]

/-- `UNITS_MAP.get(var, 'unknown')`. -/
def unitsGet (var : String) : String :=
  match UNITS_MAP.find? (fun p => p.1 == var) with
  | some p => p.2
  | none => "unknown"

/-- The `ignore` denylist of `get_defaults`. -/
def ignore : List String :=
  ["archiver_length", "available", "Ca", "capacity", "elementsize",
   "frozen", "instantiations", "local", "model", "needs_prelim_update",
   "recordables", "state", "t_spike", "tau_minus", "tau_minus_triplet",
   "thread", "vp", "receptor_types", "events", "global_id",
   "element_type", "type", "type_id", "has_connections", "n_synapses",
   "thread_local_id", "node_uses_wfr", "supports_precise_spikes",
   "synaptic_elements", "y_0", "y_1", "allow_offgrid_spikes",
   "shift_now_spikes", "post_trace"]

/-- Modelled from the spec: `conversion.make_pynn_compatible` lives in
pyNN/nest/conversion.py, which is not among the provided sources.  It is
applied only to values that already passed the accepted-type check, and the
spec treats such values as kept in their accepted shape, so it is modelled
as the identity. -/
def make_pynn_compatible (v : PyValue) : PyValue := v

/-- The warning emitted by `get_defaults` for a parameter whose value type
is not supported. -/
def unsupportedWarning (name : String) (value : PyValue) : String :=
  "Ignoring parameter " ++ name ++ " since PyNN does not support " ++
    pythonTypeName value

/-- The result of `get_defaults`: the two maps it builds plus the trace of
warnings it emits. -/
structure DefaultsResult where
  default_params : List (String × PyValue)
  default_initial_values : List (String × PyValue)
  warnings : List String
deriving DecidableEq, Repr

/-- The value of `variables = defaults.get('recordables', [])`, read as a
list of state-variable names. -/
def recordableVariables (defaults : PyDict) : List String :=
  match dictGet defaults "recordables" (.pyStrList []) with
  | .pyStrList ss => ss
  | _ => []

/-- The loop body of `get_defaults`, iterating over `defaults.items()`:
a recordable name goes to the initial-value map (with no type check);
otherwise, a name not on the denylist is kept in the parameter map when its
value has an accepted type and dropped with a warning when it does not. -/
def get_defaults_loop (stateVars : List String) :
    List (String × PyValue) → DefaultsResult
  | [] => ⟨[], [], []⟩
  | (name, value) :: rest =>
    if name ∈ stateVars then
      ⟨(get_defaults_loop stateVars rest).default_params,
       (name, value) :: (get_defaults_loop stateVars rest).default_initial_values,
       (get_defaults_loop stateVars rest).warnings⟩
    else if name ∈ ignore then
      get_defaults_loop stateVars rest
    else if isValidType value then
      ⟨(name, make_pynn_compatible value) ::
         (get_defaults_loop stateVars rest).default_params,
       (get_defaults_loop stateVars rest).default_initial_values,
       (get_defaults_loop stateVars rest).warnings⟩
    else
      ⟨(get_defaults_loop stateVars rest).default_params,
       (get_defaults_loop stateVars rest).default_initial_values,
       unsupportedWarning name value ::
         (get_defaults_loop stateVars rest).warnings⟩

/-- `get_defaults` of pyNN/nest/cells.py, applied to the dict returned by
`nest.GetDefaults(model_name)`. -/
def get_defaults (defaults : PyDict) : DefaultsResult :=
  get_defaults_loop (recordableVariables defaults) defaults

/-- The opaque NEST engine, as seen through the introspection calls the shim
makes: `nest.GetDefaults(model_name)`, `nest.GetDefaults(model_name,
'recordables')` (which may fail with a `NESTError`, carried as the error
string), and `nest.GetDefaults(model_name, 'element_type')`. -/
structure Engine where
  getDefaults : String → PyDict
  recordablesQuery : String → Except String (List String)
  elementType : String → String

/-- `get_receptor_types` of pyNN/nest/cells.py: the keys of the
`receptor_types` entry of the defaults, or the fixed two-entry fallback. -/
def get_receptor_types (engine : Engine) (model_name : String) : List String :=
  match dictGet (engine.getDefaults model_name) "receptor_types"
      (.pyStrList ["excitatory", "inhibitory"]) with
  | .pyStrList ss => ss
  | _ => []

/-- `get_recordables` of pyNN/nest/cells.py: the engine's recordables list,
or the empty list when the engine query fails with a `NESTError`. -/
def get_recordables (engine : Engine) (model_name : String) : List String :=
  match engine.recordablesQuery model_name with
  | .ok names => names
  | .error _ => []

/-- The class attributes of the type synthesized by `native_cell_type`. -/
structure CellTypeDescriptor where
  nest_model : String
  default_parameters : List (String × PyValue)
  default_initial_values : List (String × PyValue)
  receptor_types : List String
  injectable : Bool
  recordable : List String
  units : List (String × String)
  standard_receptor_type : Bool
  conductance_based : Bool
  always_local : Bool
  uses_parrot : Bool
deriving DecidableEq, Repr

/-- `native_cell_type` of pyNN/nest/cells.py.  Returns the synthesized
descriptor together with the warnings emitted by `get_defaults` during
reflection. -/
def native_cell_type (engine : Engine) (model_name : String) :
    CellTypeDescriptor × List String :=
  let gd := get_defaults (engine.getDefaults model_name)
  let receptor_types := get_receptor_types engine model_name
  let recordable := get_recordables engine model_name ++ ["spikes"]
  let element_type := engine.elementType model_name
  (⟨model_name,
    gd.default_params,
    gd.default_initial_values,
    receptor_types,
    gd.default_initial_values.any (fun p => p.1 == "V_m"),
    recordable,
    recordable.map (fun var => (var, unitsGet var)),
    receptor_types == ["excitatory", "inhibitory"],
    recordable.any (fun s => s.take 1 == "g"),
    element_type == "stimulator",
    element_type == "stimulator"⟩,
   gd.warnings)

/-- A pending end-of-session write request: an element of
`simulator.state.write_on_end`, holding the population (by its label), the
recorded variables and the destination filename. -/
structure WriteRequest where
  population : String
  variables_ : List String
  filename : String
deriving DecidableEq, Repr

/-- The process-wide session state (`simulator.state`).  Only the fields the
shim under study reads or writes are modelled. -/
structure SimulatorState where
  dt : ℚ
  min_delay : ℚ
  max_delay : ℚ
  rng_seed : Nat
  threads : Nat
  num_threads : Nat
  verbosity : String
  spike_precision : String
  recording_precision : Nat
  t_flush : Option ℚ
  write_on_end : List WriteRequest
  tempdirs : List String
deriving DecidableEq, Repr

/-- Modelled from the spec: `DEFAULT_MAX_DELAY` comes from
pyNN.common.control, which is not among the provided sources; the spec fixes
only that a default exists, and pyNN's documented default is 10.0 ms. -/
def DEFAULT_MAX_DELAY : ℚ := 10

/-- Modelled from the spec: `simulator.state.clear()` lives in
pyNN/nest/simulator.py, which is not among the provided sources; per spec
section 3 the session state is reset to defaults at `setup`, in particular
the bookkeeping lists become empty. -/
def clearedState : SimulatorState :=
  ⟨1/10, 1/10, DEFAULT_MAX_DELAY, 42, 1, 1, "warning", "off_grid", 3, none,
   [], []⟩

/-- Modelled from the spec: `simulator.state.set_delays` lives in
pyNN/nest/simulator.py, which is not among the provided sources; per spec
section 4.2 `setup` applies the timestep and delay bounds to the session. -/
def set_delays (st : SimulatorState) (min_delay max_delay : ℚ) :
    SimulatorState :=
  { st with min_delay := min_delay, max_delay := max_delay }

/-- The `extra_params` keyword arguments of `setup` that the shim reads.
A `none` field means the keyword was not supplied. -/
structure ExtraParams where
  threads : Option Nat := none
  verbosity : Option String := none
  spike_precision : Option String := none
  recording_precision : Option Nat := none
  grng_seed : Option Nat := none
  rng_seeds : Option (List Nat) := none
  rng_seeds_seed : Option Nat := none
  rng_seed : Option Nat := none
  t_flush : Option ℚ := none
  max_delay : Option ℚ := none
deriving DecidableEq, Repr

/-- The deprecation warning texts emitted by the seed handling of `setup`
(quotes of the original messages elided). -/
def grngSeedWarning : String :=
  "The setup argument grng_seed is now rng_seed"

def rngSeedsWarning : String :=
  "The setup argument rng_seeds is no longer available. " ++
    "Taking the first value for the global seed."

def rngSeedsSeedWarning : String :=
  "The setup argument rng_seeds_seed is now rng_seed"

/-- The `for key in (threads, verbosity, spike_precision,
recording_precision)` loop of `setup`, followed by the
`num_threads = extra_params.get('threads') or 1` assignment (Python `or`
turns a 0 thread count into 1). -/
def applyBasicOptions (p : ExtraParams) (st : SimulatorState) :
    SimulatorState :=
  let st := match p.threads with
    | some n => { st with threads := n }
    | none => st
  let st := match p.verbosity with
    | some v => { st with verbosity := v }
    | none => st
  let st := match p.spike_precision with
    | some v => { st with spike_precision := v }
    | none => st
  let st := match p.recording_precision with
    | some v => { st with recording_precision := v }
    | none => st
  { st with num_threads := match p.threads with
      | some 0 => 1
      | some n => n
      | none => 1 }

/-- The `grng_seed` branch of the seed handling: assigns the deprecated
value and emits its warning when present. -/
def applyGrngSeed (p : ExtraParams) (st : SimulatorState) :
    SimulatorState × List String :=
  match p.grng_seed with
  | some g => ({ st with rng_seed := g }, [grngSeedWarning])
  | none => (st, [])

/-- The final `if 'rng_seeds_seed' in extra_params: ... else: ...` of the
seed handling.  Note that the `else` branch runs whenever `rng_seeds_seed`
is absent and overwrites `rng_seed` with `extra_params.get('rng_seed', 42)`,
regardless of any value taken from `grng_seed` or `rng_seeds` just before. -/
def applyRngSeedsSeed (p : ExtraParams) (st : SimulatorState)
    (w : List String) : SimulatorState × List String :=
  match p.rng_seeds_seed with
  | some v => ({ st with rng_seed := v }, w ++ [rngSeedsSeedWarning])
  | none => ({ st with rng_seed := p.rng_seed.getD 42 }, w)

/-- The complete seed handling of `setup`: `grng_seed`, then `rng_seeds`
(taking the first element; an empty list raises `IndexError`), then the
`rng_seeds_seed` / default branch.  Returns the updated state and the trace
of deprecation warnings. -/
def applySeedOptions (p : ExtraParams) (st : SimulatorState) :
    Except String (SimulatorState × List String) :=
  let a := applyGrngSeed p st
  match p.rng_seeds with
  | some [] => .error "IndexError: list index out of range"
  | some (first :: _) =>
      .ok (applyRngSeedsSeed p { a.1 with rng_seed := first }
        (a.2 ++ [rngSeedsWarning]))
  | none => .ok (applyRngSeedsSeed p a.1 a.2)

/-- The tail of `setup` after the seed handling: the optional `t_flush`
option, the timestep, and the delay bounds. -/
def applyTimingOptions (timestep min_delay : ℚ) (p : ExtraParams)
    (st : SimulatorState) : SimulatorState :=
  let st := match p.t_flush with
    | some v => { st with t_flush := some v }
    | none => st
  let st := { st with dt := timestep }
  set_delays st min_delay (p.max_delay.getD DEFAULT_MAX_DELAY)

/-- `setup` of pyNN/nest/__init__.py, as its effect on the session state and
its emitted warnings.  `common.setup` (argument validation, not among the
provided sources) does not touch the modelled state; the engine call
`nest.SetDefaults('spike_generator', ...)` and the final `return rank()`
are engine-side effects and a state read, not modelled here. -/
def setup (timestep min_delay : ℚ) (p : ExtraParams) :
    Except String (SimulatorState × List String) :=
  match applySeedOptions p (applyBasicOptions p clearedState) with
  | .error e => .error e
  | .ok (st, w) => .ok (applyTimingOptions timestep min_delay p st, w)

/-- One `population.write_data(io, variables)` call performed by `end`,
with the io handler obtained from the destination filename. -/
structure WriteEffect where
  population : String
  variables_ : List String
  filename : String
deriving DecidableEq, Repr

/-- The first loop of `end`: one write per pending request, in order. -/
def performWrites : List WriteRequest → List WriteEffect
  | [] => []
  | w :: rest => ⟨w.population, w.variables_, w.filename⟩ :: performWrites rest

/-- The second loop of `end`: one `shutil.rmtree(tempdir)` per entry. -/
def removeTempdirs : List String → List String
  | [] => []
  | d :: rest => d :: removeTempdirs rest

/-- The outcome of `end`: the writes performed, the directories removed, and
the session state left behind. -/
structure EndResult where
  writes : List WriteEffect
  removed : List String
  state : SimulatorState
deriving DecidableEq, Repr

/-- `end` of pyNN/nest/__init__.py: flush every pending write, remove every
temporary directory, then clear both lists. -/
def end_ (st : SimulatorState) : EndResult :=
  ⟨performWrites st.write_on_end,
   removeTempdirs st.tempdirs,
   { st with tempdirs := [], write_on_end := [] }⟩

/-- The second argument of `_discrepancy_due_to_rounding`: either a scalar
(no `__len__`) or a sequence of values, one per parameter that was set. -/
inductive OutputValues where
  | scalar (v : ℚ)
  | values (vs : List ℚ)
deriving DecidableEq, Repr

/-- `_discrepancy_due_to_rounding` of pyNN/nest/__init__.py.  The declared
parameters are a dict from names to values; `get_time_step()` is passed in
as `time_step`.  In the sequence branch the source evaluates
`parameters.keys().index('delay')`, and in Python 3 `dict.keys()` has no
`index` method, so that branch raises an `AttributeError`. -/
def discrepancy_due_to_rounding (parameters : List (String × ℚ))
    (output_values : OutputValues) (time_step : ℚ) : Except String Bool :=
  if "delay" ∉ parameters.map Prod.fst then
    .ok false
  else
    match output_values with
    | .values _ =>
        .error "AttributeError: dict_keys object has no attribute index"
    | .scalar output_delay =>
        .ok (decide
          (|((parameters.find? (fun p => p.1 == "delay")).map
              Prod.snd).getD 0 - output_delay| < time_step))

/-! ## Helper lemmas -/

@[simp]
theorem native_default_parameters (engine : Engine) (m : String) :
    (native_cell_type engine m).1.default_parameters =
      (get_defaults (engine.getDefaults m)).default_params := rfl

@[simp]
theorem native_default_initial_values (engine : Engine) (m : String) :
    (native_cell_type engine m).1.default_initial_values =
      (get_defaults (engine.getDefaults m)).default_initial_values := rfl

@[simp]
theorem native_recordable (engine : Engine) (m : String) :
    (native_cell_type engine m).1.recordable =
      get_recordables engine m ++ ["spikes"] := rfl

@[simp]
theorem native_units (engine : Engine) (m : String) :
    (native_cell_type engine m).1.units =
      (get_recordables engine m ++ ["spikes"]).map
        (fun var => (var, unitsGet var)) := rfl

@[simp]
theorem native_always_local (engine : Engine) (m : String) :
    (native_cell_type engine m).1.always_local =
      (engine.elementType m == "stimulator") := rfl

@[simp]
theorem native_uses_parrot (engine : Engine) (m : String) :
    (native_cell_type engine m).1.uses_parrot =
      (engine.elementType m == "stimulator") := rfl

@[simp]
theorem native_warnings (engine : Engine) (m : String) :
    (native_cell_type engine m).2 =
      (get_defaults (engine.getDefaults m)).warnings := rfl

/-- Any entry of the parameter map built by the `get_defaults` loop comes
from a source entry that is not a state variable, is not on the denylist,
and has an accepted value type. -/
theorem mem_default_params_loop (stateVars : List String)
    (l : List (String × PyValue)) (name : String) (w : PyValue)
    (h : (name, w) ∈ (get_defaults_loop stateVars l).default_params) :
    ∃ v, (name, v) ∈ l ∧ name ∉ stateVars ∧ name ∉ ignore ∧
      isValidType v = true ∧ w = make_pynn_compatible v := by
  induction l with
  | nil => simp [get_defaults_loop] at h
  | cons p rest ih =>
    obtain ⟨n, v⟩ := p
    by_cases h1 : n ∈ stateVars
    · simp only [get_defaults_loop, if_pos h1] at h
      obtain ⟨v', hmem, hx⟩ := ih h
      exact ⟨v', List.mem_cons_of_mem _ hmem, hx⟩
    · by_cases h2 : n ∈ ignore
      · simp only [get_defaults_loop, if_neg h1, if_pos h2] at h
        obtain ⟨v', hmem, hx⟩ := ih h
        exact ⟨v', List.mem_cons_of_mem _ hmem, hx⟩
      · by_cases h3 : isValidType v
        · simp only [get_defaults_loop, if_neg h1, if_neg h2, if_pos h3,
            List.mem_cons] at h
          rcases h with h | h
          · simp only [Prod.mk.injEq] at h
            obtain ⟨hn, hw⟩ := h
            subst hn
            exact ⟨v, List.mem_cons_self _ _, h1, h2, h3, hw⟩
          · obtain ⟨v', hmem, hx⟩ := ih h
            exact ⟨v', List.mem_cons_of_mem _ hmem, hx⟩
        · simp only [get_defaults_loop, if_neg h1, if_neg h2,
            if_neg h3] at h
          obtain ⟨v', hmem, hx⟩ := ih h
          exact ⟨v', List.mem_cons_of_mem _ hmem, hx⟩

/-- Processing one more dict entry can only grow the warning trace. -/
theorem warnings_loop_mono (stateVars : List String) (p : String × PyValue)
    (rest : List (String × PyValue)) :
    (get_defaults_loop stateVars rest).warnings ⊆
      (get_defaults_loop stateVars (p :: rest)).warnings := by
  obtain ⟨n, v⟩ := p
  intro w hw
  by_cases h1 : n ∈ stateVars
  · simpa only [get_defaults_loop, if_pos h1] using hw
  · by_cases h2 : n ∈ ignore
    · simpa only [get_defaults_loop, if_neg h1, if_pos h2] using hw
    · by_cases h3 : isValidType v
      · simpa only [get_defaults_loop, if_neg h1, if_neg h2,
          if_pos h3] using hw
      · simp only [get_defaults_loop, if_neg h1, if_neg h2, if_neg h3]
        exact List.mem_cons_of_mem _ hw

/-- A dict entry that is not a state variable, not denylisted and has an
unsupported value type produces its warning in the trace. -/
theorem warning_of_invalid_loop (stateVars : List String)
    (l : List (String × PyValue)) (name : String) (value : PyValue)
    (hmem : (name, value) ∈ l) (h1 : name ∉ stateVars) (h2 : name ∉ ignore)
    (h3 : isValidType value = false) :
    unsupportedWarning name value ∈ (get_defaults_loop stateVars l).warnings := by
  induction l with
  | nil => cases hmem
  | cons p rest ih =>
    rcases List.mem_cons.mp hmem with h | h
    · obtain ⟨n, v⟩ := p
      simp only [Prod.mk.injEq] at h
      obtain ⟨hn, hv⟩ := h
      subst hn; subst hv
      simp only [get_defaults_loop, if_neg h1, if_neg h2,
        if_neg (by simp [h3] : ¬ (isValidType value = true))]
      exact List.mem_cons_self _ _
    · exact warnings_loop_mono stateVars p rest (ih h)

/-- In an association list with no duplicate keys, a key determines its
value. -/
theorem assoc_nodup_value_unique {β : Type} {l : List (String × β)}
    (hnd : (l.map Prod.fst).Nodup) {k : String} {a b : β}
    (ha : (k, a) ∈ l) (hb : (k, b) ∈ l) : a = b := by
  induction l with
  | nil => cases ha
  | cons p rest ih =>
    simp only [List.map_cons, List.nodup_cons] at hnd
    rcases List.mem_cons.mp ha with ha' | ha' <;>
      rcases List.mem_cons.mp hb with hb' | hb'
    · rw [← ha'] at hb'
      exact (Prod.mk.injEq .. ▸ hb').2.symm
    · exact absurd (List.mem_map_of_mem Prod.fst hb')
        (by rw [← ha'] at hnd; exact hnd.1)
    · exact absurd (List.mem_map_of_mem Prod.fst ha')
        (by rw [← hb'] at hnd; exact hnd.1)
    · exact ih hnd.2 ha' hb'

/-- `unitsGet` returns the table entry for a known quantity and the
explicit unknown marker for every other quantity. -/
theorem unitsGet_spec (var : String) :
    (var, unitsGet var) ∈ UNITS_MAP ∨
      (unitsGet var = "unknown" ∧ ∀ u, (var, u) ∉ UNITS_MAP) := by
  unfold unitsGet
  cases hfind : UNITS_MAP.find? (fun p => p.1 == var) with
  | some p =>
    left
    have hp : p.1 = var := by simpa using List.find?_some hfind
    have hmem := List.mem_of_find?_eq_some hfind
    rw [← hp]
    simpa using hmem
  | none =>
    right
    refine ⟨rfl, fun u hu => ?_⟩
    have := List.find?_eq_none.mp hfind _ hu
    simp at this

/-- The write loop of `end` performs exactly the pending requests, in
order. -/
theorem performWrites_eq (l : List WriteRequest) :
    performWrites l =
      l.map (fun w => ⟨w.population, w.variables_, w.filename⟩) := by
  induction l with
  | nil => rfl
  | cons w rest ih => simp [performWrites, ih]

/-- The removal loop of `end` removes exactly the recorded temporary
directories, in order. -/
theorem removeTempdirs_eq (l : List String) : removeTempdirs l = l := by
  induction l with
  | nil => rfl
  | cons d rest ih => simp [removeTempdirs, ih]

/-- Turning a pending write request into its performed write effect is
injective. -/
theorem writeEffect_injective :
    Function.Injective
      (fun w : WriteRequest =>
        (⟨w.population, w.variables_, w.filename⟩ : WriteEffect)) := by
  intro a b h
  cases a; cases b
  simpa using h

@[simp]
theorem applyTimingOptions_rng_seed (timestep min_delay : ℚ)
    (p : ExtraParams) (st : SimulatorState) :
    (applyTimingOptions timestep min_delay p st).rng_seed = st.rng_seed := by
  cases h : p.t_flush <;> simp [applyTimingOptions, set_delays, h]

/-! ## Concrete engines and inputs used by witnesses and counterexamples -/

/-- A small consistent engine used as a concrete witness input. -/
def witnessEngine : Engine :=
  ⟨fun _ => [("recordables", .pyStrList ["V_m"]), ("V_m", .pyFloat (-70)),
             ("tau_m", .pyFloat 10), ("global_id", .pyInt 5)],
   fun _ => .ok ["V_m"],
   fun _ => "neuron"⟩

/-- An engine whose model has a stimulator element classification. -/
def stimulatorEngine : Engine :=
  ⟨fun _ => [("rate", .pyFloat 100)], fun _ => .ok [], fun _ => "stimulator"⟩

/-- An engine whose recordables query fails with a NESTError. -/
def errorEngine : Engine :=
  ⟨fun _ => [], fun _ => .error "NESTError", fun _ => "neuron"⟩

/-- An engine reporting a recordable state variable whose default value has
a type outside the accepted set. -/
def c2Engine : Engine :=
  ⟨fun _ => [("recordables", .pyStrList ["V_m"]), ("V_m", .pyStr "oops")],
   fun _ => .ok ["V_m"],
   fun _ => "neuron"⟩

/-- An engine with an ordinary parameter whose default value has a type
outside the accepted set. -/
def c2WitnessEngine : Engine :=
  ⟨fun _ => [("recordables", .pyStrList []), ("tau_m", .pyFloat 10),
             ("origin_label", .pyStr "x")],
   fun _ => .ok [],
   fun _ => "neuron"⟩

/-- The `extra_params` of the legacy multi-seed call of C1:
`setup(rng_seeds=[854947309, 470924491])`. -/
def c1Params : ExtraParams := { rng_seeds := some [854947309, 470924491] }

/-- The RNG seed stored in the session state produced by `setup`, when
`setup` succeeded. -/
def resultSeed : Except String (SimulatorState × List String) → Option Nat
  | .ok (st, _) => some st.rng_seed
  | .error _ => none

/-- The warnings emitted by a successful `setup` call. -/
def resultWarnings : Except String (SimulatorState × List String) →
    List String
  | .ok (_, w) => w
  | .error _ => []

/-! ## Claim theorems -/

/-- C1: the claim says `setup(rng_seeds=[854947309, 470924491])` results in
session RNG seed 854947309.  Evaluating the code at that input shows that
the deprecation warning is emitted, but the final seed is 42, not
854947309: the `else` branch of the `rng_seeds_seed` check runs because
`rng_seeds_seed` is absent, and overwrites the seed taken from
`rng_seeds[0]` with `extra_params.get('rng_seed', 42)`. -/
theorem C1_rng_seeds_first_element_overwritten :
    resultSeed (setup 1 1 c1Params) = some 42 ∧
    resultSeed (setup 1 1 c1Params) ≠ some 854947309 ∧
    rngSeedsWarning ∈ resultWarnings (setup 1 1 c1Params) := by
  refine ⟨rfl, by decide, ?_⟩
  show rngSeedsWarning ∈ [] ++ [rngSeedsWarning]
  simp

/-- C2, counterexample: the claim says every parameter or state variable
whose value type is outside the accepted set is dropped with a warning,
never silently kept.  For an engine whose recordable state variable `V_m`
has a string default, reflection keeps `V_m` (with its string value) in the
initial-value map and emits no warning at all. -/
theorem C2_state_variable_kept_silently :
    isValidType (PyValue.pyStr "oops") = false ∧
    (native_cell_type c2Engine "ht_neuron").1.default_initial_values =
      [("V_m", PyValue.pyStr "oops")] ∧
    (native_cell_type c2Engine "ht_neuron").2 = [] := by decide

/-- C2, amended: the type rule governs only the parameter map.  Every entry
kept in the descriptor's parameter map has a value of accepted type
(numeric scalar, typed numeric sequence wrapper, or numeric array), and
every candidate for the parameter map (an entry that is neither a
recordable state variable nor denylisted) whose value type is outside the
accepted set is dropped from the parameter map with a warning naming the
entry and its rejected type; recordable state variables are instead routed
to the initial-value map without any type check or warning. -/
theorem C2_parameter_type_rule (engine : Engine) (model_name : String)
    (hnd : ((engine.getDefaults model_name).map Prod.fst).Nodup) :
    (∀ nv ∈ (native_cell_type engine model_name).1.default_parameters,
       isValidType nv.2 = true) ∧
    (∀ name value, (name, value) ∈ engine.getDefaults model_name →
       name ∉ recordableVariables (engine.getDefaults model_name) →
       name ∉ ignore →
       isValidType value = false →
       unsupportedWarning name value ∈ (native_cell_type engine model_name).2 ∧
       ∀ w, (name, w) ∉
         (native_cell_type engine model_name).1.default_parameters) := by
  constructor
  · rintro ⟨name, w⟩ hmem
    rw [native_default_parameters] at hmem
    obtain ⟨v, _, _, _, hvalid, hw⟩ :=
      mem_default_params_loop _ _ _ _ hmem
    rw [hw]
    exact hvalid
  · intro name value hmem hvars hig hinvalid
    constructor
    · rw [native_warnings]
      exact warning_of_invalid_loop _ _ _ _ hmem hvars hig hinvalid
    · intro w hw
      rw [native_default_parameters] at hw
      obtain ⟨v, hvmem, _, _, hvalid, _⟩ :=
        mem_default_params_loop _ _ _ _ hw
      rw [assoc_nodup_value_unique hnd hvmem hmem] at hvalid
      rw [hvalid] at hinvalid
      cases hinvalid

/-- Witness for C2: a concrete engine with a string-valued parameter
`origin_label`; the amended theorem yields its warning and its absence from
the parameter map. -/
theorem C2_parameter_type_rule_witness :
    unsupportedWarning "origin_label" (PyValue.pyStr "x") ∈
      (native_cell_type c2WitnessEngine "iaf_psc_alpha").2 ∧
    ∀ w, ("origin_label", w) ∉
      (native_cell_type c2WitnessEngine "iaf_psc_alpha").1.default_parameters :=
  (C2_parameter_type_rule c2WitnessEngine "iaf_psc_alpha" (by decide)).2
    "origin_label" (PyValue.pyStr "x") (by decide) (by decide) (by decide)
    (by decide)

/-- C3: for a parameter dict whose `delay` entry has declared value `d`, an
engine-realized scalar delay `d'` and current timestep `T`, if
`|d - d'| < T` then `_discrepancy_due_to_rounding` reports consistency
(returns `True`, no mismatch). -/
theorem C3_rounding_discrepancy_consistent
    (parameters : List (String × ℚ)) (d d' T : ℚ)
    (hfind : parameters.find? (fun p => p.1 == "delay") = some ("delay", d))
    (hlt : |d - d'| < T) :
    discrepancy_due_to_rounding parameters (.scalar d') T =
      Except.ok true := by
  have hmem : "delay" ∈ parameters.map Prod.fst := by
    have := List.mem_of_find?_eq_some hfind
    exact List.mem_map_of_mem Prod.fst this
  unfold discrepancy_due_to_rounding
  rw [if_neg (not_not_intro hmem), hfind]
  simpa using hlt

/-- Witness for C3: declared delay 3, realized delay 3, timestep 1. -/
theorem C3_rounding_discrepancy_consistent_witness :
    discrepancy_due_to_rounding [("weight", 2), ("delay", 3)]
      (.scalar 3) 1 = Except.ok true :=
  C3_rounding_discrepancy_consistent [("weight", 2), ("delay", 3)] 3 3 1
    (by decide)
    (by rw [sub_self, abs_zero]; exact one_pos)

/-- C4: `end` performs exactly one write per pending
(population, variable-set, destination) request, removes every temporary
directory in the list, leaves both lists empty afterwards, and is a no-op
producing no writes and no removals when both lists are empty (it is a
total function, so it cannot raise). -/
theorem C4_end_flushes_and_clears (st : SimulatorState) :
    (end_ st).writes =
      st.write_on_end.map
        (fun w => ⟨w.population, w.variables_, w.filename⟩) ∧
    (∀ w : WriteRequest,
      (end_ st).writes.count ⟨w.population, w.variables_, w.filename⟩ =
        st.write_on_end.count w) ∧
    (end_ st).removed = st.tempdirs ∧
    (end_ st).state.write_on_end = [] ∧
    (end_ st).state.tempdirs = [] ∧
    (st.write_on_end = [] → st.tempdirs = [] →
      (end_ st).writes = [] ∧ (end_ st).removed = []) := by
  refine ⟨performWrites_eq _, ?_, removeTempdirs_eq _, rfl, rfl, ?_⟩
  · intro w
    show (performWrites st.write_on_end).count _ = _
    rw [performWrites_eq]
    exact List.count_map_of_injective _ _ writeEffect_injective _
  · intro h1 h2
    constructor
    · show performWrites st.write_on_end = []
      rw [h1]; rfl
    · show removeTempdirs st.tempdirs = []
      rw [h2]; rfl

/-- Witness for C4: on the cleared state both lists are empty and `end` is
a no-op. -/
theorem C4_end_flushes_and_clears_witness :
    (end_ clearedState).writes = [] ∧ (end_ clearedState).removed = [] :=
  (C4_end_flushes_and_clears clearedState).2.2.2.2.2 rfl rfl

/-- C5: no name on the fixed denylist ever appears in the parameter map of
the descriptor produced by reflection, regardless of its value type. -/
theorem C5_denylist_excluded (engine : Engine) (model_name name : String)
    (h : name ∈ ignore) :
    ∀ w, (name, w) ∉
      (native_cell_type engine model_name).1.default_parameters := by
  intro w hw
  rw [native_default_parameters] at hw
  obtain ⟨v, _, _, hig, _, _⟩ := mem_default_params_loop _ _ _ _ hw
  exact hig h

/-- Witness for C5: `global_id` is denylisted and absent from the parameter
map of a concrete reflected descriptor (even though its value is an int). -/
theorem C5_denylist_excluded_witness :
    "global_id" ∈ ignore ∧
    ∀ w, ("global_id", w) ∉
      (native_cell_type witnessEngine "iaf_psc_alpha").1.default_parameters :=
  ⟨by decide,
   C5_denylist_excluded witnessEngine "iaf_psc_alpha" "global_id" (by decide)⟩

/-- C6: the unit map of the descriptor is keyed by exactly the recordable
names, and each entry carries either the unit from the fixed lookup table
or the explicit unknown marker when the name is not in the table. -/
theorem C6_units_exactly_recordables (engine : Engine) (model_name : String) :
    (native_cell_type engine model_name).1.units.map Prod.fst =
      (native_cell_type engine model_name).1.recordable ∧
    ∀ p ∈ (native_cell_type engine model_name).1.units,
      (p.1, p.2) ∈ UNITS_MAP ∨
        (p.2 = "unknown" ∧ ∀ u, (p.1, u) ∉ UNITS_MAP) := by
  constructor
  · rw [native_units, native_recordable]
    have hkeys : ∀ l : List String,
        (l.map (fun var => (var, unitsGet var))).map Prod.fst = l := by
      intro l
      induction l with
      | nil => rfl
      | cons x xs ih => simp [ih]
    exact hkeys _
  · intro p hp
    rw [native_units] at hp
    obtain ⟨var, _, hvar⟩ := List.mem_map.mp hp
    rw [← hvar]
    exact unitsGet_spec var

/-- Witness for C6: in a concrete descriptor, the recordable `V_m` carries
its table unit mV. -/
theorem C6_units_exactly_recordables_witness :
    (("V_m", "mV") : String × String).1 ∈ UNITS_MAP.map Prod.fst ∧
    ((("V_m", "mV") : String × String).1,
      (("V_m", "mV") : String × String).2) ∈ UNITS_MAP ∨
    ((("V_m", "mV") : String × String).2 = "unknown" ∧
      ∀ u, ((("V_m", "mV") : String × String).1, u) ∉ UNITS_MAP) := by
  rcases (C6_units_exactly_recordables witnessEngine "iaf_psc_alpha").2
      ("V_m", "mV") (by decide) with h | h
  · exact Or.inl ⟨by decide, h⟩
  · exact Or.inr h

/-- C7: the descriptor flags `always_local` and `uses_parrot` are both true
when the engine classifies the model's element type as stimulator, and both
false for every other classification. -/
theorem C7_stimulator_flags (engine : Engine) (model_name : String) :
    (engine.elementType model_name = "stimulator" →
      (native_cell_type engine model_name).1.always_local = true ∧
      (native_cell_type engine model_name).1.uses_parrot = true) ∧
    (engine.elementType model_name ≠ "stimulator" →
      (native_cell_type engine model_name).1.always_local = false ∧
      (native_cell_type engine model_name).1.uses_parrot = false) := by
  constructor
  · intro h
    rw [native_always_local, native_uses_parrot, h]
    exact ⟨rfl, rfl⟩
  · intro h
    rw [native_always_local, native_uses_parrot]
    simp [h]

/-- Witness for C7: a stimulator model gets both flags, a neuron model
neither. -/
theorem C7_stimulator_flags_witness :
    ((native_cell_type stimulatorEngine "poisson_generator").1.always_local
        = true ∧
      (native_cell_type stimulatorEngine "poisson_generator").1.uses_parrot
        = true) ∧
    ((native_cell_type witnessEngine "iaf_psc_alpha").1.always_local
        = false ∧
      (native_cell_type witnessEngine "iaf_psc_alpha").1.uses_parrot
        = false) :=
  ⟨(C7_stimulator_flags stimulatorEngine "poisson_generator").1 rfl,
   (C7_stimulator_flags witnessEngine "iaf_psc_alpha").2 (by decide)⟩

/-- C8: when the engine-side recordables query fails with an engine error,
`get_recordables` returns the empty list; being a total function, it
propagates nothing to the caller. -/
theorem C8_recordables_error_not_propagated (engine : Engine)
    (model_name err : String)
    (h : engine.recordablesQuery model_name = Except.error err) :
    get_recordables engine model_name = [] := by
  unfold get_recordables
  rw [h]

/-- Witness for C8: a concrete engine whose query raises a NESTError. -/
theorem C8_recordables_error_not_propagated_witness :
    errorEngine.recordablesQuery "my_model" = Except.error "NESTError" ∧
    get_recordables errorEngine "my_model" = [] :=
  ⟨rfl, C8_recordables_error_not_propagated errorEngine "my_model"
    "NESTError" rfl⟩

/-- C9: when no seed-related option at all is supplied to `setup`, the
resulting session RNG seed is the fixed default 42. -/
theorem C9_default_seed (timestep min_delay : ℚ) (p : ExtraParams)
    (h1 : p.grng_seed = none) (h2 : p.rng_seeds = none)
    (h3 : p.rng_seeds_seed = none) (h4 : p.rng_seed = none) :
    ∃ st w, setup timestep min_delay p = Except.ok (st, w) ∧
      st.rng_seed = 42 := by
  have hseed : applySeedOptions p (applyBasicOptions p clearedState) =
      .ok ({ applyBasicOptions p clearedState with rng_seed := 42 }, []) := by
    simp [applySeedOptions, applyGrngSeed, applyRngSeedsSeed, h1, h2, h3, h4]
  refine ⟨applyTimingOptions timestep min_delay p
      { applyBasicOptions p clearedState with rng_seed := 42 }, [], ?_, ?_⟩
  · unfold setup
    rw [hseed]
  · rw [applyTimingOptions_rng_seed]

/-- Witness for C9: `setup(timestep=1, min_delay=1)` with empty
`extra_params`. -/
theorem C9_default_seed_witness :
    ∃ st w, setup 1 1 {} = Except.ok (st, w) ∧ st.rng_seed = 42 :=
  C9_default_seed 1 1 {} rfl rfl rfl rfl

/-- C10: the descriptor's recordable list is the engine-reported list with
`spikes` appended, hence always contains `spikes` and is never empty, and
the unit map maps `spikes` to ms. -/
theorem C10_spikes_always_recordable (engine : Engine)
    (model_name : String) :
    (native_cell_type engine model_name).1.recordable =
      get_recordables engine model_name ++ ["spikes"] ∧
    "spikes" ∈ (native_cell_type engine model_name).1.recordable ∧
    (native_cell_type engine model_name).1.recordable ≠ [] ∧
    ("spikes", "ms") ∈ (native_cell_type engine model_name).1.units := by
  refine ⟨rfl, ?_, ?_, ?_⟩
  · rw [native_recordable]
    simp
  · rw [native_recordable]
    simp
  · rw [native_units]
    have h1 : "spikes" ∈ get_recordables engine model_name ++ ["spikes"] := by
      simp
    exact List.mem_map_of_mem (fun var => (var, unitsGet var)) h1

end PyNNNest
